import Mathlib

/-!
Verification of the skills-timeline generator (`src/timeline.py`).

Dates are modelled as proleptic Gregorian ordinals (`ℤ`, as produced by
Python's `date.toordinal`), so that `(reference_date - dt).days` is the
integer difference of ordinals.  The float literal `365.25` of the source
is the exact rational `365.25 : ℚ`.

`-np.log(arg)` is modelled exactly: for `arg > 0` the returned float is
`-ln arg`, recorded by the constructor `LogResult.val arg` carrying the
exact rational argument (so that equality of `LogResult` values is equality
of the corresponding floats, `ln` being injective on positives, and the
real value is `-Real.log arg`); for `arg = 0` numpy returns `-inf` and for
`arg < 0` it returns `nan`, emitting a warning in both cases — it raises
no exception.
-/

namespace Timeline

/-- Outcome of `-np.log(arg)`: `val arg` (the float `-ln arg`) when the
argument is positive, `-inf` when it is zero, `nan` when it is negative. -/
inductive LogResult where
  | val (arg : ℚ)
  | neginf
  | nan
deriving DecidableEq, Repr

/-- `years_ago = (reference_date - dt).days / 365.25` (line 25 of the source). -/
def years_ago (dt reference_date : ℤ) : ℚ :=
  (reference_date - dt) / 365.25

/-- `log_transform_date` (source lines 21-28) with the reference date passed
explicitly: `-np.log(years_ago + 1)`, with numpy's behaviour outside the
logarithm's domain made explicit. -/
def log_transform_date (dt reference_date : ℤ) : LogResult :=
  if 0 < years_ago dt reference_date + 1 then .val (years_ago dt reference_date + 1)
  else if years_ago dt reference_date + 1 = 0 then .neginf
  else .nan

/-- The error the spec prescribes for a date after the reference date.  No such
error exists in the source; it is introduced here only to state claims about
error behaviour. -/
inductive DomainError where
  | mk
deriving DecidableEq

/-- The error the spec prescribes for malformed records.  No such error exists
in the source; it is introduced here only to state claims about error
behaviour. -/
inductive MalformedRecordError where
  | mk
deriving DecidableEq

/-- Running `log_transform_date` as the caller observes it: the source body
(lines 21-28) contains no `raise`, so the call always returns normally. -/
def log_transform_run (dt reference_date : ℤ) : Except DomainError LogResult :=
  .ok (log_transform_date dt reference_date)

/-- ASCII lowercasing, as Python's `str.lower` acts on the ASCII strings of
this program (`Char.toLower` lowers exactly `A`-`Z`). -/
def pyLower (s : List Char) : List Char :=
  s.map Char.toLower

/-- `needle` is a prefix of `hay` (helper for Python's `in` on strings). -/
def listStartsWith : List Char → List Char → Bool
  | [], _ => true
  | _ :: _, [] => false
  | n :: ns, h :: hs => n == h && listStartsWith ns hs

/-- Python's substring test `needle in hay`. -/
def containsSub (needle : List Char) : List Char → Bool
  | [] => needle.isEmpty
  | h :: hs => listStartsWith needle (h :: hs) || containsSub needle hs

/-- `keyword.lower() in skill_name.lower()` (source line 60). -/
def keywordIn (keyword skill_name : String) : Bool :=
  containsSub (pyLower keyword.toList) (pyLower skill_name.toList)

/-- The `categories` dict (source lines 48-55), in its insertion order, which
is the iteration order of the categorisation loop. -/
def categories : List (String × List String) :=
  [("Programming", ["C++", "STL", "Python", "JavaScript", "Haskell", "Go", "R", "Bash"]),
   ("Tools & Systems", ["Vi", "Git", "Linux", "Unix", "Make", "CMake", "Docker", "Jenkins"]),
   ("Protocols & Standards", ["TCP", "XMPP", "SIP", "FIX", "ONVIF"]),
   ("Platforms & Cloud", ["Google Cloud", "AWS", "Cloudflare", "Raspberry Pi"]),
   ("Frameworks & Libraries", ["Qt", "JUCE", "ZeroMQ", "Hugo", "Jekyll"]),
   ("Other", [])]

/-- `any(keyword.lower() in skill_name.lower() for keyword in keywords)`
(source line 60). -/
def matchesCategory (skill_name : String) (keywords : List String) : Bool :=
  keywords.any (fun keyword => keywordIn keyword skill_name)

/-- The loop body of `categorise_skill` (source lines 59-61). -/
def categoriseAux (skill_name : String) : List (String × List String) → String
  | [] => "Other"
  | (category, keywords) :: rest =>
    if matchesCategory skill_name keywords then category
    else categoriseAux skill_name rest

/-- `categorise_skill` (source lines 58-62): first category, in dict order,
with a case-insensitive substring keyword match; `'Other'` as fallback. -/
def categorise_skill (skill_name : String) : String :=
  categoriseAux skill_name categories

/-- The six category names, in the order of the `categories` dict. -/
def categoryNames : List String :=
  categories.map Prod.fst

/-- The categoriser as the spec words it, written with `List.find?`: the first
category of the list whose keyword set matches, `"Other"` when none does.
Used to compare the source's loop against the spec's wording. -/
def categorize_spec (skill_name : String) : String :=
  match categories.find? (fun ck => matchesCategory skill_name ck.2) with
  | some ck => ck.1
  | none => "Other"

/-- The characters after the first space (Python's `x.split(' ', 1)[-1]`). -/
def afterFirstSpace : List Char → List Char
  | [] => []
  | c :: cs => if c == ' ' then cs else afterFirstSpace cs

/-- `clean_name` (source line 67): `x.split(' ', 1)[-1] if ' ' in x else x`. -/
def clean_name (x : String) : String :=
  if ' ' ∈ x.toList then String.mk (afterFirstSpace x.toList) else x

/-- One parsed input row: `name`, `start`, `end` (dates as ordinals).  The
field `endDate` renders the source's `end` column, `end` being reserved in
Lean. -/
structure Record where
  name : String
  start : ℤ
  endDate : ℤ
deriving DecidableEq, Repr

/-- The `category_order` map (source lines 70-77).  Note it ranks
`Platforms & Cloud` (2) before `Protocols & Standards` (3), the reverse of
their order in the `categories` dict.  A category outside the map would be
`NaN` in pandas and sort last; `6` models that (unreachable: the categoriser
only produces the six mapped names). -/
def category_order : String → ℕ
  | "Programming" => 0
  | "Tools & Systems" => 1
  | "Platforms & Cloud" => 2
  | "Protocols & Standards" => 3
  | "Frameworks & Libraries" => 4
  | "Other" => 5
  | _ => 6

/-- The comparison of `df.sort_values(['category_order', 'start'])` (source
line 78): lexicographic on (category rank, start date). -/
def sort_key_le (a b : Record) : Bool :=
  let ra := category_order (categorise_skill a.name)
  let rb := category_order (categorise_skill b.name)
  decide (ra < rb) || (decide (ra = rb) && decide (a.start ≤ b.start))

/-- The sort comparison as a relation, for the sortedness statements. -/
def sortRel (a b : Record) : Prop :=
  sort_key_le a b = true

instance : DecidableRel sortRel :=
  fun a b => instDecidableEqBool (sort_key_le a b) true

instance : IsTotal Record sortRel :=
  ⟨by
    intro a b
    simp only [sortRel, sort_key_le, Bool.or_eq_true, decide_eq_true_eq,
      Bool.and_eq_true]
    omega⟩

instance : IsTrans Record sortRel :=
  ⟨by
    intro a b c hab hbc
    simp only [sortRel, sort_key_le, Bool.or_eq_true, decide_eq_true_eq,
      Bool.and_eq_true] at hab hbc ⊢
    omega⟩

/-- The sorted entry list of source lines 78-79: entries in ascending
(category rank, start) order.  pandas' `sort_values` on these two keys is
modelled by a sort with the same comparison. -/
def sortEntries (records : List Record) : List Record :=
  records.insertionSort sortRel

/-- The colour palette (source line 45). -/
def colors : List String :=
  ["#2E86AB", "#A23B72", "#F18F01", "#C73E1D", "#592E83", "#048A81"]

/-- `list(categories.keys()).index(category) if category in categories else 0`
(source line 84). -/
def color_idx (category : String) : ℕ :=
  match categoryNames.findIdx? (fun k => k == category) with
  | some i => i
  | none => 0

/-- `colors[color_idx % len(colors)]` (source line 85). -/
def color_for (category : String) : String :=
  colors.getD (color_idx category % colors.length) ""

/-- `years_since_start = (today - row['start']).days / 365.25` (source
line 88). -/
def years_since_start (start today : ℤ) : ℚ :=
  (today - start) / 365.25

/-- `line_width = max(2, 8 - (years_since_start / 5))` (source line 89), as a
function of the elapsed years. -/
def line_width (years : ℚ) : ℚ :=
  max 2 (8 - years / 5)

/-- The per-entry line width of source lines 88-89. -/
def entry_line_width (start today : ℤ) : ℚ :=
  line_width (years_since_start start today)

/-- One plotted row, with every derived field of the loop at source
lines 82-125: position `y` is the row's index in the sorted order. -/
structure LayoutRow where
  name : String
  cleanName : String
  category : String
  start_log : LogResult
  end_log : LogResult
  y : ℕ
  lineWidth : ℚ
  color : String
deriving DecidableEq, Repr

/-- The derived fields of one sorted row at index `i` (source lines 82-125). -/
def layoutRow (today : ℤ) (i : ℕ) (r : Record) : LayoutRow :=
  let category := categorise_skill r.name
  { name := r.name
    cleanName := clean_name r.name
    category := category
    start_log := log_transform_date r.start today
    end_log := log_transform_date r.endDate today
    y := i
    lineWidth := entry_line_width r.start today
    color := color_for category }

/-- `create_log_scale_timeline` (source lines 31-163), restricted to the data
it derives: categorise, sort by (category rank, start), then emit one row per
entry with the row index as its vertical position.  `today` is computed once
(source line 35) and used for every transform. -/
def create_log_scale_timeline (records : List Record) (today : ℤ) : List LayoutRow :=
  (sortEntries records).enum.map (fun p => layoutRow today p.1 p.2)

/-- `yaxis=dict(..., autorange='reversed')` (source line 152): the vertical
axis is rendered reversed, most recent rows at the top. -/
def yaxis_autorange_reversed : Bool :=
  true

/-- The whole run (`main`, source lines 189-202, via `load_skills_data`,
lines 13-18): neither function validates records — there is no check of
`name`/`start`/`end` presence nor of `end >= start`, and no `raise` — so the
pipeline always reaches the renderer and returns its rows. -/
def run_pipeline (records : List Record) (today : ℤ) :
    Except MalformedRecordError (List LayoutRow) :=
  .ok (create_log_scale_timeline records today)

/-- Proleptic Gregorian ordinal of 1 January of year `y` (what
`pd.to_datetime(f'{year}-01-01')` denotes), by the `date.toordinal`
formula. -/
def jan1_ordinal (y : ℤ) : ℤ :=
  365 * (y - 1) + (y - 1) / 4 - (y - 1) / 100 + (y - 1) / 400 + 1

/-- `range(1998, 2026, 3)` (source line 145). -/
def tick_years : List ℤ :=
  [1998, 2001, 2004, 2007, 2010, 2013, 2016, 2019, 2022, 2025]

/-- The tick position of year `y` (source line 145):
`log_transform_date(pd.to_datetime(f'{year}-01-01'), today)`. -/
def tick_position (y today : ℤ) : LogResult :=
  log_transform_date (jan1_ordinal y) today

/-- `tickvals` (source line 145): the tick positions of all tick years,
computed with the same `today` as the data transforms. -/
def tickvals (today : ℤ) : List LogResult :=
  tick_years.map (fun y => tick_position y today)

/-- `log_transform_date` with its optional argument (source lines 21-24): when
`reference_date` is `None` the code reads `datetime.now()`; the ambient
wall-clock instant is passed here explicitly as `now`. -/
def log_transform_date_opt (dt : ℤ) (reference_date : Option ℤ) (now : ℤ) : LogResult :=
  match reference_date with
  | none => log_transform_date dt now
  | some r => log_transform_date dt r

/-- The category priority order as the spec's fixed enumeration words it:
Programming, Tools & Systems, Protocols & Standards, Platforms & Cloud,
Frameworks & Libraries, Other.  Stated from the spec to compare against the
source's `category_order` map. -/
def spec_category_rank : String → ℕ
  | "Programming" => 0
  | "Tools & Systems" => 1
  | "Protocols & Standards" => 2
  | "Platforms & Cloud" => 3
  | "Frameworks & Libraries" => 4
  | "Other" => 5
  | _ => 6

/-- A record whose `end` precedes its `start`. -/
def malformed_record : Record :=
  { name := "Python", start := 100, endDate := 50 }

/-!
## Claims
-/

/-- C1: the claim's display-name half holds (`"3 Docker"` strips to
`"Docker"`, and the full prefixed name is what is categorised), but the
categoriser returns `"Programming"`, not `"Tools & Systems"`: the keyword
`'R'` of the Programming category matches the letter `r` of `docker` as a
case-insensitive substring before the `'Docker'` keyword of Tools & Systems
is ever tried.  This evaluates the code at the failing input. -/
theorem docker_categorisation_eval :
    categorise_skill "3 Docker" = "Programming" ∧
      clean_name "3 Docker" = "Docker" ∧
      (create_log_scale_timeline [⟨"3 Docker", 0, 0⟩] 0).map
          (fun row => (row.category, row.cleanName)) =
        [("Programming", "Docker")] := by
  decide

/-- C2 counterexample: day 400 is strictly after reference day 0 and makes
`years_elapsed + 1 ≤ 0`, yet the transform returns normally with the value
`nan` — no `DomainError` is raised. -/
theorem future_date_counterexample :
    years_ago 400 0 + 1 ≤ 0 ∧
      log_transform_run 400 0 = .ok .nan ∧
      log_transform_run 400 0 ≠ .error DomainError.mk := by
  refine ⟨by norm_num [years_ago], ?_, ?_⟩
  · simp only [log_transform_run, log_transform_date, years_ago]
    norm_num
  · simp only [log_transform_run]
    intro h
    exact Except.noConfusion h

/-- C2 amended: for every date making `years_elapsed + 1 ≤ 0` the transform
does NOT raise: `np.log` of the negative argument silently yields `nan`,
which is returned to the caller as an ordinary value. -/
theorem future_date_nan (dt reference_date : ℤ)
    (h : years_ago dt reference_date + 1 ≤ 0) :
    log_transform_run dt reference_date = .ok .nan ∧
      log_transform_date dt reference_date = .nan := by
  have h365 : (365.25 : ℚ) = 1461 / 4 := by norm_num
  have hne : years_ago dt reference_date + 1 ≠ 0 := by
    intro heq
    have hfs := heq
    unfold years_ago at hfs
    rw [h365] at hfs
    field_simp at hfs
    have h4 : ((4 * (reference_date - dt) : ℤ) : ℚ) = ((-1461 : ℤ) : ℚ) := by
      push_cast
      linarith
    have h5 : (4 * (reference_date - dt) : ℤ) = -1461 := by
      exact_mod_cast h4
    omega
  have hlt : years_ago dt reference_date + 1 < 0 := lt_of_le_of_ne h hne
  constructor
  · unfold log_transform_run log_transform_date
    rw [if_neg (by linarith), if_neg hne]
  · unfold log_transform_date
    rw [if_neg (by linarith), if_neg hne]

/-- Witness for `future_date_nan` at day 400 against reference day 0. -/
theorem future_date_nan_witness :
    years_ago 400 0 + 1 ≤ 0 ∧
      (log_transform_run 400 0 = .ok .nan ∧ log_transform_date 400 0 = .nan) :=
  ⟨by norm_num [years_ago], future_date_nan 400 0 (by norm_num [years_ago])⟩

/-- C3 counterexample: a record with `end < start` does not abort the run:
no `MalformedRecordError` is raised, the pipeline reaches the renderer and
produces a full row for the malformed record. -/
theorem malformed_record_counterexample :
    malformed_record.endDate < malformed_record.start ∧
      run_pipeline [malformed_record] 200 ≠ .error MalformedRecordError.mk ∧
      run_pipeline [malformed_record] 200 =
        .ok (create_log_scale_timeline [malformed_record] 200) ∧
      (create_log_scale_timeline [malformed_record] 200).length = 1 := by
  refine ⟨by decide, ?_, rfl, by decide⟩
  intro h
  exact Except.noConfusion h

/-- C3 amended: the source validates nothing — `load_skills_data` only parses
and `main` never raises — so for every record list (malformed or not) the run
returns normally with one rendered row per input record. -/
theorem pipeline_never_fails (records : List Record) (today : ℤ) :
    run_pipeline records today = .ok (create_log_scale_timeline records today) ∧
      (create_log_scale_timeline records today).length = records.length := by
  refine ⟨rfl, ?_⟩
  simp [create_log_scale_timeline, sortEntries]

/-- C4: for `dt ≤ reference_date` the transform takes the in-domain branch
and its value is the float `-ln(years_elapsed + 1)` with
`years_elapsed = (reference_date - dt).days / 365.25`: the recorded log
argument is exactly that rational, and its denoted real value is the spec's
formula. -/
theorem transform_formula (dt reference_date : ℤ) (h : dt ≤ reference_date) :
    log_transform_date dt reference_date =
        .val (((reference_date - dt : ℤ) : ℚ) / 365.25 + 1) ∧
      -Real.log (((((reference_date - dt : ℤ) : ℚ) / 365.25 + 1 : ℚ)) : ℝ) =
        -Real.log (((reference_date - dt : ℤ) : ℝ) / 365.25 + 1) := by
  have hya : years_ago dt reference_date = ((reference_date - dt : ℤ) : ℚ) / 365.25 := by
    unfold years_ago
    push_cast
    ring
  have hnn : 0 ≤ years_ago dt reference_date := by
    rw [hya]
    apply div_nonneg
    · exact_mod_cast sub_nonneg.mpr h
    · norm_num
  constructor
  · unfold log_transform_date
    rw [if_pos (by linarith), hya]
  · congr 1
    have h365 : ((365.25 : ℚ) : ℝ) = (365.25 : ℝ) := by norm_num
    push_cast [h365]
    ring

/-- Witness for `transform_formula` with `dt` one year before the
reference. -/
theorem transform_formula_witness :
    (0 : ℤ) ≤ 365 ∧
      (log_transform_date 0 365 = .val (((365 - 0 : ℤ) : ℚ) / 365.25 + 1) ∧
        -Real.log (((((365 - 0 : ℤ) : ℚ) / 365.25 + 1 : ℚ)) : ℝ) =
          -Real.log (((365 - 0 : ℤ) : ℝ) / 365.25 + 1)) :=
  ⟨by decide, transform_formula 0 365 (by decide)⟩

/-- C5: for every tick year `Y` and any record whose start is 1 January of
`Y`, the axis tick position computed for `Y` is exactly the transform of the
record's start under the same reference date, hence exactly the `start_log`
position laid out for that record; and the tick is among `tickvals` of that
same reference date. -/
theorem tick_positions_consistent (y today : ℤ) (r : Record)
    (hy : y ∈ tick_years) (hs : r.start = jan1_ordinal y) :
    tick_position y today = log_transform_date r.start today ∧
      tick_position y today ∈ tickvals today ∧
      ∀ row ∈ create_log_scale_timeline [r] today, row.start_log = tick_position y today := by
  refine ⟨by rw [hs]; rfl, ?_, ?_⟩
  · exact List.mem_map.mpr ⟨y, hy, rfl⟩
  · intro row hrow
    have hone : create_log_scale_timeline [r] today = [layoutRow today 0 r] := rfl
    rw [hone] at hrow
    have hrow' : row = layoutRow today 0 r := List.mem_singleton.mp hrow
    subst hrow'
    simp only [layoutRow]
    rw [hs]
    rfl

/-- Witness for `tick_positions_consistent` at the 1998 tick. -/
theorem tick_positions_consistent_witness :
    (1998 : ℤ) ∈ tick_years ∧
      (Record.mk "Vi" 729390 730000).start = jan1_ordinal 1998 ∧
      tick_position 1998 730500 =
        log_transform_date (Record.mk "Vi" 729390 730000).start 730500 :=
  ⟨by decide, by decide,
    (tick_positions_consistent 1998 730500 (Record.mk "Vi" 729390 730000)
      (by decide) (by decide)).1⟩

/-- The categorisation loop equals the spec's first-match description, over
any category table. -/
theorem categoriseAux_eq_find (skill_name : String) :
    ∀ l : List (String × List String),
      categoriseAux skill_name l =
        match l.find? (fun ck => matchesCategory skill_name ck.2) with
        | some ck => ck.1
        | none => "Other"
  | [] => rfl
  | (category, keywords) :: rest => by
    by_cases hm : matchesCategory skill_name keywords
    · simp [categoriseAux, List.find?, hm]
    · simp only [categoriseAux, List.find?, hm, Bool.false_eq_true, if_false]
      rw [categoriseAux_eq_find skill_name rest]

/-- The categorisation loop only produces a listed category name or
`"Other"`. -/
theorem categoriseAux_mem (skill_name : String) :
    ∀ l : List (String × List String),
      categoriseAux skill_name l = "Other" ∨ categoriseAux skill_name l ∈ l.map Prod.fst
  | [] => Or.inl rfl
  | (category, keywords) :: rest => by
    by_cases hm : matchesCategory skill_name keywords
    · right
      simp [categoriseAux, hm]
    · rcases categoriseAux_mem skill_name rest with h | h
      · left
        simpa [categoriseAux, hm] using h
      · right
        simp only [categoriseAux, hm, Bool.false_eq_true, if_false, List.map_cons]
        exact List.mem_cons_of_mem _ h

/-- C6: the categoriser is a total function of the name, always lands in the
six fixed categories, agrees with the spec's first-match-in-priority-order
description (so cross-category ties go to the earlier category), and falls
back to `"Other"` when no keyword of any category matches. -/
theorem categorise_total_first_match (skill_name : String) :
    categorise_skill skill_name ∈ categoryNames ∧
      categorise_skill skill_name = categorize_spec skill_name ∧
      (categories.all (fun ck => !matchesCategory skill_name ck.2) = true →
        categorise_skill skill_name = "Other") := by
  refine ⟨?_, ?_, ?_⟩
  · rcases categoriseAux_mem skill_name categories with h | h
    · rw [categorise_skill, h]
      decide
    · exact h
  · exact categoriseAux_eq_find skill_name categories
  · intro hall
    have hnone : categories.find? (fun ck => matchesCategory skill_name ck.2) = none := by
      rw [List.find?_eq_none]
      intro ck hck
      have := List.all_eq_true.mp hall ck hck
      simpa using this
    rw [categorise_skill, categoriseAux_eq_find skill_name categories, hnone]

/-- Witness for `categorise_total_first_match` on a name matching no
keyword. -/
theorem categorise_total_first_match_witness :
    categories.all (fun ck => !matchesCategory "zzzz" ck.2) = true ∧
      categorise_skill "zzzz" = "Other" :=
  ⟨by decide, (categorise_total_first_match "zzzz").2.2 (by decide)⟩

/-- C7 counterexample: `"TCP"` categorises to Protocols & Standards (rank 2
in the spec's enumeration) and `"AWS"` to Platforms & Cloud (rank 3 in the
spec's enumeration); both records start on the same date, yet the code sorts
AWS before TCP — its `category_order` map ranks Platforms & Cloud (2) below
Protocols & Standards (3), the reverse of the enumeration order, so the
layout is not ordered by the enumeration's priority rank. -/
theorem layout_sort_counterexample :
    (sortEntries [⟨"TCP", 0, 0⟩, ⟨"AWS", 0, 0⟩]).map Record.name = ["AWS", "TCP"] ∧
      categorise_skill "TCP" = "Protocols & Standards" ∧
      categorise_skill "AWS" = "Platforms & Cloud" ∧
      (Record.mk "TCP" 0 0).start = (Record.mk "AWS" 0 0).start ∧
      spec_category_rank "Protocols & Standards" < spec_category_rank "Platforms & Cloud" := by
  decide

/-- C7 amended: the layout sorts primarily by the code's `category_order`
rank — which maps Platforms & Cloud to 2 and Protocols & Standards to 3,
swapping the two relative to the spec's enumeration — and secondarily by
start date ascending; the sorted index is the row position and the vertical
axis is rendered reversed. -/
theorem layout_sort_by_code_rank (records : List Record) (today : ℤ) :
    List.Sorted (fun a b : Record =>
        category_order (categorise_skill a.name) < category_order (categorise_skill b.name) ∨
          (category_order (categorise_skill a.name) = category_order (categorise_skill b.name) ∧
            a.start ≤ b.start)) (sortEntries records) ∧
      List.Perm (sortEntries records) records ∧
      (create_log_scale_timeline records today).map LayoutRow.y =
        List.range records.length ∧
      category_order "Platforms & Cloud" = 2 ∧
      category_order "Protocols & Standards" = 3 ∧
      yaxis_autorange_reversed = true := by
  refine ⟨?_, List.perm_insertionSort sortRel records, ?_, rfl, rfl, rfl⟩
  · have hs := List.sorted_insertionSort sortRel records
    apply hs.imp
    intro a b hab
    simp only [sortRel, sort_key_le, Bool.or_eq_true, decide_eq_true_eq,
      Bool.and_eq_true] at hab
    exact hab
  · simp only [create_log_scale_timeline, List.map_map]
    have hcomp : (LayoutRow.y ∘ fun p : ℕ × Record => layoutRow today p.1 p.2) =
        Prod.fst := rfl
    rw [hcomp, List.enum_map_fst, sortEntries, List.length_insertionSort]

/-- C8: for `dt ≤ reference_date` the transform's value `-ln(years + 1)` is
non-positive, and it is zero exactly when `dt` is the reference date. -/
theorem transform_nonpositive_iff (dt reference_date : ℤ) (h : dt ≤ reference_date) :
    log_transform_date dt reference_date = .val (years_ago dt reference_date + 1) ∧
      -Real.log ((years_ago dt reference_date + 1 : ℚ) : ℝ) ≤ 0 ∧
      (-Real.log ((years_ago dt reference_date + 1 : ℚ) : ℝ) = 0 ↔ dt = reference_date) := by
  have hnn : 0 ≤ years_ago dt reference_date := by
    unfold years_ago
    apply div_nonneg _ (by norm_num)
    simp only [sub_nonneg]
    exact_mod_cast h
  have hargR : (1 : ℝ) ≤ ((years_ago dt reference_date + 1 : ℚ) : ℝ) := by
    have h0 : (0 : ℝ) ≤ ((years_ago dt reference_date : ℚ) : ℝ) := by exact_mod_cast hnn
    push_cast at h0 ⊢
    linarith
  refine ⟨?_, ?_, ?_⟩
  · unfold log_transform_date
    rw [if_pos (by linarith)]
  · have := Real.log_nonneg hargR
    linarith
  · rw [neg_eq_zero, Real.log_eq_zero]
    constructor
    · rintro (h0 | h1 | hm1)
      · linarith
      · have harg1 : (years_ago dt reference_date + 1 : ℚ) = 1 := by exact_mod_cast h1
        have hy0 : years_ago dt reference_date = 0 := by linarith
        unfold years_ago at hy0
        rw [div_eq_zero_iff] at hy0
        rcases hy0 with h' | h'
        · have hq : (dt : ℚ) = (reference_date : ℚ) := by linarith [sub_eq_zero.mp h']
          exact_mod_cast hq
        · norm_num at h'
      · linarith
    · rintro rfl
      right; left
      unfold years_ago
      norm_num

/-- Witness for `transform_nonpositive_iff` ten days before the reference. -/
theorem transform_nonpositive_iff_witness :
    (0 : ℤ) ≤ 10 ∧
      (log_transform_date 0 10 = .val (years_ago 0 10 + 1) ∧
        -Real.log ((years_ago 0 10 + 1 : ℚ) : ℝ) ≤ 0 ∧
        (-Real.log ((years_ago 0 10 + 1 : ℚ) : ℝ) = 0 ↔ (0 : ℤ) = 10)) :=
  ⟨by decide, transform_nonpositive_iff 0 10 (by decide)⟩

/-- C9: the line width is `max(2, 8 - years_since_start / 5)`: width 8 at
zero elapsed years, width 2 at thirty, floored at 2, and monotone
non-increasing as the start recedes (elapsed years grow). -/
theorem line_width_properties (y y' : ℚ) (start today : ℤ) (h : y ≤ y') :
    line_width 0 = 8 ∧
      line_width 30 = 2 ∧
      2 ≤ line_width y ∧
      line_width y' ≤ line_width y ∧
      entry_line_width start today = max 2 (8 - years_since_start start today / 5) := by
  refine ⟨?_, ?_, le_max_left _ _, ?_, rfl⟩
  · unfold line_width
    rw [show (8 : ℚ) - 0 / 5 = 8 by norm_num]
    exact max_eq_right (by norm_num)
  · unfold line_width
    rw [show (8 : ℚ) - 30 / 5 = 2 by norm_num]
    exact max_eq_right le_rfl
  · unfold line_width
    exact max_le_max le_rfl (by linarith)

/-- Witness for `line_width_properties` between zero and thirty years. -/
theorem line_width_properties_witness :
    (0 : ℚ) ≤ 30 ∧
      (line_width 0 = 8 ∧
        line_width 30 = 2 ∧
        2 ≤ line_width 0 ∧
        line_width 30 ≤ line_width 0 ∧
        entry_line_width 0 0 = max 2 (8 - years_since_start 0 0 / 5)) :=
  ⟨by norm_num, line_width_properties 0 30 0 0 (by norm_num)⟩

/-- C10: with `reference_date` omitted the transform reads the ambient
wall-clock instant: the same input date yields different results at two
different instants (both as transform outcomes and as denoted reals), while
an explicitly supplied `reference_date` makes the result independent of the
instant. -/
theorem implicit_now_nondeterminism :
    log_transform_date_opt 0 none 0 ≠ log_transform_date_opt 0 none 3652 ∧
      (∀ now now' : ℤ,
        log_transform_date_opt 0 (some 5) now = log_transform_date_opt 0 (some 5) now') ∧
      -Real.log (((1 : ℚ)) : ℝ) ≠ -Real.log (((3652 / 365.25 + 1 : ℚ)) : ℝ) := by
  refine ⟨?_, fun _ _ => rfl, ?_⟩
  · simp only [log_transform_date_opt, log_transform_date, years_ago]
    norm_num
  · have h1 : ((1 : ℚ) : ℝ) = 1 := by norm_num
    have hgt : (1 : ℝ) < ((3652 / 365.25 + 1 : ℚ) : ℝ) := by
      push_cast
      norm_num
    intro hEq
    rw [h1, Real.log_one] at hEq
    have := Real.log_pos hgt
    linarith

end Timeline
